import Mathlib

/-
Verification of the environment-configuration loader in
`djangodocker/settings.py`.

The embedding is value-level: the process environment is a function
`String → Option String` (`os.environ.get`), the invocation arguments
`sys.argv` are a `List String`, and Python control flow (early `return`,
`raise`, `try/except`) is made explicit in the result types.  Log calls are
modelled by returning the emitted messages.
-/

namespace DjangoDocker

/-- Result of a call to `get_env_var`: the Python function either returns a
string, returns `None`, or raises a `KeyError`. -/
inductive EnvVarResult where
  | str (s : String)
  | pyNone
  | keyError (msg : String)
  deriving DecidableEq, Repr

/-- Shallow embedding of `get_env_var` (settings.py lines 23-55).

`env` is the process environment (`os.environ.get`), `argv` is `sys.argv`.
`exceptCommands = Option.none` models the Python default argument
`except_commands=None`, which the function body replaces by
`['collectstatic']`.

The Python body computes `set(except_commands).intersection(sys.argv)`;
here the intersection is the filter of `except_commands` by membership in
`argv`, which is empty, and contains a given command, exactly when the
Python set intersection is.

The returned pair is the Python result together with the list of
info-level log messages emitted by the call. -/
def get_env_var (env : String → Option String) (argv : List String)
    (name : String) (required : Bool)
    (exceptCommands : Option (List String)) :
    EnvVarResult × List String :=
  let ec := exceptCommands.getD ["collectstatic"]
  match env name with
  | some v => (EnvVarResult.str v, [])
  | Option.none =>
      if required then
        let matching := ec.filter (fun c => argv.contains c)
        if matching.isEmpty then
          (EnvVarResult.keyError
            ("Environment variable " ++ name ++ " if not defined"), [])
        else
          (EnvVarResult.str "PLACEHOLDER",
            ["Required environment variable " ++ name ++
             " was ignored, as Django was started with " ++
             String.intercalate ", " matching])
      else
        (EnvVarResult.pyNone, [])

/-- Python `==` between the value returned by `get_env_var` and a string
literal: in Python `None == s` is `False` for every string `s`. -/
def pyEqStr : EnvVarResult → String → Bool
  | EnvVarResult.str s, t => s == t
  | _, _ => false

/-- Embedding of settings.py lines 69-70:
`_debug = get_env_var('DEBUG', required=False)` followed by
`DEBUG = _debug == '1'`. -/
def DEBUG (env : String → Option String) (argv : List String) : Bool :=
  pyEqStr (get_env_var env argv "DEBUG" false Option.none).1 "1"

/-- A Python runtime value relevant to the `ALLOWED_HOSTS` code: the string
or `None` that `get_env_var` can return, or a list of strings (the type
Django expects `ALLOWED_HOSTS` to have). -/
inductive PyVal where
  | pyStr (s : String)
  | pyList (xs : List String)
  | pyNone
  deriving DecidableEq, Repr

/-- Possible outcomes of
`requests.get('http://169.254.169.254/latest/meta-data/local-ipv4', timeout=0.5)`.
`connectTimeout` is `requests.exceptions.ConnectTimeout`, which subclasses
`requests.exceptions.ConnectionError`; `readTimeout` is
`requests.exceptions.ReadTimeout`, which subclasses `Timeout` but not
`ConnectionError`. -/
inductive ProbeOutcome where
  | success (body : String)
  | connectionFailed
  | connectTimeout
  | readTimeout
  deriving DecidableEq, Repr

/-- Python `x.append(item)`: defined on lists; calling it on a `str` or on
`None` raises `AttributeError`. -/
def pyAppend : PyVal → String → Except String PyVal
  | PyVal.pyList xs, s => Except.ok (PyVal.pyList (xs ++ [s]))
  | PyVal.pyStr _, _ => Except.error "AttributeError"
  | PyVal.pyNone, _ => Except.error "AttributeError"

/-- Observable outcome of the allowed-hosts fragment: the final value bound
to `ALLOWED_HOSTS`, the warning messages logged, and the name of an
exception escaping the fragment, if any. -/
structure EnrichResult where
  allowedHosts : PyVal
  warnings : List String
  raised : Option String
  deriving DecidableEq, Repr

/-- Embedding of the `try/except ConnectionError` block around the metadata
probe and `ALLOWED_HOSTS.append(r.text)` (settings.py lines 81-86).  The
`except ConnectionError` clause catches a connection failure and a connect
timeout (a `ConnectionError` subclass) and logs a warning; a read timeout
is not a `ConnectionError` and escapes; on probe success the `append` call
runs and, if it raises (`AttributeError` on a non-list), the exception is
likewise not caught by the `ConnectionError` clause. -/
def metadataEnrich (allowedHosts : PyVal) (outcome : ProbeOutcome) :
    EnrichResult :=
  match outcome with
  | ProbeOutcome.success body =>
      match pyAppend allowedHosts body with
      | Except.ok v => ⟨v, [], Option.none⟩
      | Except.error e => ⟨allowedHosts, [], some e⟩
  | ProbeOutcome.connectionFailed =>
      ⟨allowedHosts, ["Could not obtain EC2 metadata"], Option.none⟩
  | ProbeOutcome.connectTimeout =>
      ⟨allowedHosts, ["Could not obtain EC2 metadata"], Option.none⟩
  | ProbeOutcome.readTimeout =>
      ⟨allowedHosts, [], some "ReadTimeout"⟩

/-- Embedding of settings.py lines 72-86:
`ALLOWED_HOSTS = get_env_var('HOST')` followed by the metadata-enrichment
block.  If `get_env_var` raises, module loading aborts before the probe
runs (the `KeyError` escapes and `ALLOWED_HOSTS` is never bound). -/
def allowedHostsSettings (env : String → Option String) (argv : List String)
    (outcome : ProbeOutcome) : EnrichResult :=
  match (get_env_var env argv "HOST" true Option.none).1 with
  | EnvVarResult.str v => metadataEnrich (PyVal.pyStr v) outcome
  | EnvVarResult.pyNone => metadataEnrich PyVal.pyNone outcome
  | EnvVarResult.keyError _ => ⟨PyVal.pyNone, [], some "KeyError"⟩

/-- Concrete environment for the spec scenarios: `HOST=example.com` and
nothing else. -/
def hostOnlyEnv : String → Option String :=
  fun n => if n = "HOST" then some "example.com" else Option.none

/-- A typical server-startup invocation, containing no exempt command. -/
def runserverArgv : List String := ["manage.py", "runserver"]

/-- C6: for every variable name present in the environment, `get_env_var`
returns the environment's string value exactly, unchanged, regardless of
the `required` flag and of the exempt-command set, and logs nothing. -/
theorem get_env_var_present (env : String → Option String)
    (argv : List String) (name : String) (required : Bool)
    (eco : Option (List String)) (v : String)
    (h : env name = some v) :
    get_env_var env argv name required eco = (EnvVarResult.str v, []) := by
  simp [get_env_var, h]

theorem get_env_var_present_witness :
    get_env_var
      (fun n => if n = "SECRET_KEY" then some "s3cret" else Option.none)
      runserverArgv "SECRET_KEY" true Option.none
      = (EnvVarResult.str "s3cret", []) :=
  get_env_var_present _ _ _ _ _ _ (by decide)

/-- C4: if a variable is absent, `required` is true, and the exempt-command
set (the supplied one, or the default `['collectstatic']`) has empty
intersection with the invocation arguments, then `get_env_var` raises a
`KeyError` whose message contains the variable's name. -/
theorem get_env_var_missing_required_raises (env : String → Option String)
    (argv : List String) (name : String) (eco : Option (List String))
    (habs : env name = Option.none)
    (hdisj : ∀ c ∈ eco.getD ["collectstatic"], c ∉ argv) :
    get_env_var env argv name true eco
      = (EnvVarResult.keyError
          ("Environment variable " ++ name ++ " if not defined"), [])
    ∧ ∃ a b, "Environment variable " ++ name ++ " if not defined"
        = a ++ name ++ b := by
  refine ⟨?_, "Environment variable ", " if not defined", rfl⟩
  simp [get_env_var, habs]
  exact hdisj

theorem get_env_var_missing_required_raises_witness :
    get_env_var (fun _ => Option.none) runserverArgv "SECRET_KEY" true
      Option.none
      = (EnvVarResult.keyError
          ("Environment variable " ++ "SECRET_KEY" ++ " if not defined"), [])
    ∧ ∃ a b, "Environment variable " ++ "SECRET_KEY" ++ " if not defined"
        = a ++ "SECRET_KEY" ++ b :=
  get_env_var_missing_required_raises _ _ _ _ rfl (by decide)

/-- C5: if a variable is absent, `required` is true, and the invocation
arguments contain `collectstatic` (the sole member of the default
exempt-command set), then `get_env_var` returns the literal string
`PLACEHOLDER` and emits one informational log entry naming both the
variable and the matching exempt command `collectstatic`. -/
theorem get_env_var_collectstatic_placeholder (env : String → Option String)
    (argv : List String) (name : String)
    (habs : env name = Option.none)
    (hmem : "collectstatic" ∈ argv) :
    get_env_var env argv name true Option.none
      = (EnvVarResult.str "PLACEHOLDER",
         ["Required environment variable " ++ name ++
          " was ignored, as Django was started with " ++ "collectstatic"]) := by
  simp [get_env_var, habs, hmem]
  rfl

theorem get_env_var_collectstatic_placeholder_witness :
    get_env_var (fun _ => Option.none) ["manage.py", "collectstatic"]
      "DB_NAME" true Option.none
      = (EnvVarResult.str "PLACEHOLDER",
         ["Required environment variable " ++ "DB_NAME" ++
          " was ignored, as Django was started with " ++ "collectstatic"]) :=
  get_env_var_collectstatic_placeholder _ _ _ rfl (by decide)

/-- C7: if a variable is absent and `required` is false, `get_env_var`
returns Python `None`, which is a distinct value from the empty string,
from the placeholder string, and from every raised error, regardless of the
invocation arguments and of the exempt-command set. -/
theorem get_env_var_optional_absent (env : String → Option String)
    (argv : List String) (name : String) (eco : Option (List String))
    (habs : env name = Option.none) :
    get_env_var env argv name false eco = (EnvVarResult.pyNone, [])
    ∧ EnvVarResult.pyNone ≠ EnvVarResult.str ""
    ∧ EnvVarResult.pyNone ≠ EnvVarResult.str "PLACEHOLDER"
    ∧ ∀ m, EnvVarResult.pyNone ≠ EnvVarResult.keyError m := by
  refine ⟨by simp [get_env_var, habs], by simp, by simp, fun m => by simp⟩

theorem get_env_var_optional_absent_witness :
    get_env_var (fun _ => Option.none) runserverArgv "DEBUG" false
      Option.none = (EnvVarResult.pyNone, [])
    ∧ EnvVarResult.pyNone ≠ EnvVarResult.str ""
    ∧ EnvVarResult.pyNone ≠ EnvVarResult.str "PLACEHOLDER"
    ∧ ∀ m, EnvVarResult.pyNone ≠ EnvVarResult.keyError m :=
  get_env_var_optional_absent _ _ _ _ rfl

/-- C8: the `DEBUG` setting is true exactly when the raw value of the
`DEBUG` environment variable is the string `"1"`; any other value,
including `"true"`, `"0"`, the empty string, or absence, gives false. -/
theorem DEBUG_iff_env_one (env : String → Option String)
    (argv : List String) :
    DEBUG env argv = true ↔ env "DEBUG" = some "1" := by
  cases h : env "DEBUG" with
  | none => simp [DEBUG, pyEqStr, get_env_var, h]
  | some v => simp [DEBUG, pyEqStr, get_env_var, h]

/-- C9: a variable whose environment value is the empty string is treated
as present: `get_env_var` returns the empty string, does not raise, does
not return the placeholder, logs nothing, and its result does not depend on
the invocation arguments, even when `required` is true. -/
theorem get_env_var_empty_string (env : String → Option String)
    (argva argvb : List String) (name : String) (required : Bool)
    (ecoa ecob : Option (List String))
    (h : env name = some "") :
    get_env_var env argva name required ecoa = (EnvVarResult.str "", [])
    ∧ get_env_var env argvb name required ecob
        = (EnvVarResult.str "", []) := by
  exact ⟨by simp [get_env_var, h], by simp [get_env_var, h]⟩

theorem get_env_var_empty_string_witness :
    get_env_var (fun n => if n = "DB_HOST" then some "" else Option.none)
      runserverArgv "DB_HOST" true Option.none
      = (EnvVarResult.str "", [])
    ∧ get_env_var (fun n => if n = "DB_HOST" then some "" else Option.none)
        ["manage.py", "collectstatic"] "DB_HOST" true (some [])
      = (EnvVarResult.str "", []) :=
  get_env_var_empty_string _ _ _ _ _ _ _ (by decide)

/-- C10: noninterference for present variables: when two calls see the same
environment value for the queried name, they return identical results and
emit no log entry, whatever the invocation arguments, the `required` flags
and the exempt-command sets are. -/
theorem get_env_var_noninterference (enva envb : String → Option String)
    (argva argvb : List String) (name : String) (reqa reqb : Bool)
    (ecoa ecob : Option (List String)) (v : String)
    (ha : enva name = some v) (hb : envb name = some v) :
    get_env_var enva argva name reqa ecoa
      = get_env_var envb argvb name reqb ecob
    ∧ (get_env_var enva argva name reqa ecoa).2 = [] := by
  exact ⟨by simp [get_env_var, ha, hb], by simp [get_env_var, ha]⟩

theorem get_env_var_noninterference_witness :
    get_env_var (fun n => if n = "DB_USER" then some "alice" else Option.none)
      runserverArgv "DB_USER" true Option.none
      = get_env_var
          (fun n => if n = "DB_USER" then some "alice" else some "other")
          ["manage.py", "collectstatic"] "DB_USER" false (some ["migrate"])
    ∧ (get_env_var
        (fun n => if n = "DB_USER" then some "alice" else Option.none)
        runserverArgv "DB_USER" true Option.none).2 = [] :=
  get_env_var_noninterference _ _ _ _ _ _ _ _ _ "alice" (by decide) (by decide)

/-- C1 is refuted by the code: with `HOST` set (so `ALLOWED_HOSTS` is a
Python string), a successful metadata probe makes
`ALLOWED_HOSTS.append(r.text)` raise `AttributeError`, which the
`except ConnectionError` clause does not catch, so the enrichment step
aborts startup; a read timeout likewise escapes, since
`requests.exceptions.ReadTimeout` is not a `ConnectionError`. -/
theorem allowedHosts_success_aborts :
    allowedHostsSettings hostOnlyEnv runserverArgv
      (ProbeOutcome.success "10.0.0.5")
      = ⟨PyVal.pyStr "example.com", [], some "AttributeError"⟩
    ∧ (allowedHostsSettings hostOnlyEnv runserverArgv
        ProbeOutcome.readTimeout).raised = some "ReadTimeout" := by
  exact ⟨by decide, by decide⟩

/-- C2 is refuted by the code: in the scenario `HOST=example.com` with the
probe returning `10.0.0.5`, the final allowed-hosts value is not the list
`["example.com", "10.0.0.5"]`; the `append` call on the string raises
`AttributeError` instead. -/
theorem allowedHosts_success_not_enriched :
    (allowedHostsSettings hostOnlyEnv runserverArgv
        (ProbeOutcome.success "10.0.0.5")).allowedHosts
      ≠ PyVal.pyList ["example.com", "10.0.0.5"]
    ∧ (allowedHostsSettings hostOnlyEnv runserverArgv
        (ProbeOutcome.success "10.0.0.5")).raised
      = some "AttributeError" := by
  exact ⟨by decide, by decide⟩

/-- C3, counterexample to the claim as stated: in the scenario
`HOST=example.com` with a connection error on the probe, the final
allowed-hosts value is not the one-element list `["example.com"]` (it is
the bare string `"example.com"`). -/
theorem allowedHosts_connFail_not_singleton_list :
    ¬ ((allowedHostsSettings hostOnlyEnv runserverArgv
          ProbeOutcome.connectionFailed).allowedHosts
        = PyVal.pyList ["example.com"]) := by
  decide

/-- C3, amended: in the scenario `HOST=example.com` with a connection error
on the probe, the final allowed-hosts value is the string `"example.com"`
(the raw `HOST` value, a string rather than a one-element list), exactly
one warning is logged, and no error is raised. -/
theorem allowedHosts_connFail_unchanged :
    allowedHostsSettings hostOnlyEnv runserverArgv
      ProbeOutcome.connectionFailed
      = ⟨PyVal.pyStr "example.com", ["Could not obtain EC2 metadata"],
         Option.none⟩ := by
  decide

end DjangoDocker
